import Mathlib

/-!
Verification development for the Automatic-Animal-Feeder firmware.

The repository contains two firmware variants:

* `main/test_servo.c` ("custom PWM feeder"): configurable default/feed
  pulse-widths and reset delay, a one-shot servo-reset timer, and a
  `/set_pwm` JSON endpoint.  Embedded below in namespace `CustomPwm`.
* `main/automatic_animal_feeder.c`: fixed pulse-widths, a one-shot
  servo-reset timer with a fixed 5000 ms period, and a repeating
  auto-feed timer configurable over `/set_timer`.  Embedded below in
  namespace `AutoFeeder`.

Time is modelled in milliseconds as `Nat` (FreeRTOS `pdMS_TO_TICKS` is a
constant monotone rescaling, irrelevant to the properties proved here).
A FreeRTOS one-shot timer is an `Option Nat` absolute deadline; starting
or resetting it stores `now + period`, expiry clears it.  `advanceTo`
(resp. `advanceB`) lets time pass with no intervening request, invoking
the timer callbacks exactly as the FreeRTOS timer task would.

The C pulse-width constants are doubles truncated into `uint32_t`
variables/arguments:
  `4096 * 0.5 / 20  = 102.4`  → 102
  `4096 * 1.25 / 20 = 256.0`  → 256
  `4096 * 1.5 / 20  = 307.2`  → 307
  `4096 * 2.5 / 20  = 512.0`  → 512
For integer duties the comparison `duty < 102.4` coincides with
`duty < 103`, and the clamp assignment stores `(uint32_t)102.4 = 102`,
so on `Nat` duties the clamp in `set_servo_position` below is
extensionally exactly the C code's behaviour with bounds 102 and 512.
-/

namespace CustomPwm

/-- `PWM_MIN_VALUE` (`4096 * 0.5 / 20`), as the `uint32_t` value it
produces when stored. -/
def PWM_MIN_VALUE : Nat := 102

/-- `PWM_MAX_VALUE` (`4096 * 2.5 / 20 = 512.0`). -/
def PWM_MAX_VALUE : Nat := 512

/-- `SERVO_DEFAULT_POSITION` (`4096 * 1.5 / 20 = 307.2`, truncated). -/
def SERVO_DEFAULT_POSITION : Nat := 307

/-- The mutable globals of `test_servo.c` together with the state of the
one-shot `servo_reset_timer`.  `resetDeadline` is the absolute time at
which the running timer expires (`none` = dormant).  `reset_fires`
counts invocations of `servo_reset_timer_callback` by the timer
facility; it is observation-only and is written by no request handler. -/
structure FeederState where
  current_pwm_value : Nat
  default_pwm_position : Nat
  feed_pwm_value : Nat
  reset_delay_ms : Nat
  resetDeadline : Option Nat
  reset_fires : Nat
deriving DecidableEq, Repr

/-- State after `app_main`/`servo_init`: servo driven to the default
position, timer created dormant. -/
def initialState : FeederState :=
  { current_pwm_value := SERVO_DEFAULT_POSITION
    default_pwm_position := SERVO_DEFAULT_POSITION
    feed_pwm_value := 256
    reset_delay_ms := 2000
    resetDeadline := none
    reset_fires := 0 }

/-- `set_servo_position` of `test_servo.c`: clamps the requested duty to
`[PWM_MIN_VALUE, PWM_MAX_VALUE]`, issues the hardware command and
records it in `current_pwm_value`. -/
def set_servo_position (duty : Nat) (s : FeederState) : FeederState :=
  let duty :=
    if duty < PWM_MIN_VALUE then PWM_MIN_VALUE
    else if duty > PWM_MAX_VALUE then PWM_MAX_VALUE
    else duty
  { s with current_pwm_value := duty }

/-- `servo_reset_timer_callback`: drives the servo back to
`default_pwm_position` (read at expiry time). -/
def servo_reset_timer_callback (s : FeederState) : FeederState :=
  set_servo_position s.default_pwm_position s

/-- `feed_handler` (`/feed`): move to the feed position, then
`xTimerChangePeriod` + `xTimerReset` arm the one-shot reset timer to
expire at `now + reset_delay_ms`. -/
def feed_handler (now : Nat) (s : FeederState) : FeederState :=
  let s := set_servo_position s.feed_pwm_value s
  { s with resetDeadline := some (now + s.reset_delay_ms) }

/-- Let time pass until `t` with no intervening request: if the one-shot
reset timer is running and its deadline has been reached, the timer
facility invokes `servo_reset_timer_callback` once and the timer goes
dormant. -/
def advanceTo (t : Nat) (s : FeederState) : FeederState :=
  match s.resetDeadline with
  | some d =>
      if d ≤ t then
        { servo_reset_timer_callback s with
            resetDeadline := none
            reset_fires := s.reset_fires + 1 }
      else s
  | none => s

theorem set_servo_position_current (duty : Nat) (s : FeederState) :
    (set_servo_position duty s).current_pwm_value =
      if duty < PWM_MIN_VALUE then PWM_MIN_VALUE
      else if duty > PWM_MAX_VALUE then PWM_MAX_VALUE
      else duty := rfl

theorem set_servo_position_current_of_mem (duty : Nat) (s : FeederState)
    (h1 : PWM_MIN_VALUE ≤ duty) (h2 : duty ≤ PWM_MAX_VALUE) :
    (set_servo_position duty s).current_pwm_value = duty := by
  rw [set_servo_position_current]
  simp only [PWM_MIN_VALUE, PWM_MAX_VALUE] at *
  split_ifs <;> omega

@[simp] theorem set_servo_position_default (duty : Nat) (s : FeederState) :
    (set_servo_position duty s).default_pwm_position = s.default_pwm_position := rfl

@[simp] theorem set_servo_position_feed (duty : Nat) (s : FeederState) :
    (set_servo_position duty s).feed_pwm_value = s.feed_pwm_value := rfl

@[simp] theorem set_servo_position_delay (duty : Nat) (s : FeederState) :
    (set_servo_position duty s).reset_delay_ms = s.reset_delay_ms := rfl

@[simp] theorem set_servo_position_deadline (duty : Nat) (s : FeederState) :
    (set_servo_position duty s).resetDeadline = s.resetDeadline := rfl

@[simp] theorem set_servo_position_fires (duty : Nat) (s : FeederState) :
    (set_servo_position duty s).reset_fires = s.reset_fires := rfl

@[simp] theorem feed_handler_deadline (now : Nat) (s : FeederState) :
    (feed_handler now s).resetDeadline = some (now + s.reset_delay_ms) := rfl

@[simp] theorem feed_handler_default (now : Nat) (s : FeederState) :
    (feed_handler now s).default_pwm_position = s.default_pwm_position := rfl

@[simp] theorem feed_handler_feed (now : Nat) (s : FeederState) :
    (feed_handler now s).feed_pwm_value = s.feed_pwm_value := rfl

@[simp] theorem feed_handler_delay (now : Nat) (s : FeederState) :
    (feed_handler now s).reset_delay_ms = s.reset_delay_ms := rfl

@[simp] theorem feed_handler_fires (now : Nat) (s : FeederState) :
    (feed_handler now s).reset_fires = s.reset_fires := rfl

theorem advanceTo_none (t : Nat) (s : FeederState)
    (h : s.resetDeadline = none) : advanceTo t s = s := by
  simp [advanceTo, h]

theorem advanceTo_some_not_due (t d : Nat) (s : FeederState)
    (h : s.resetDeadline = some d) (hlt : t < d) : advanceTo t s = s := by
  simp only [advanceTo, h]
  rw [if_neg (by omega)]

theorem advanceTo_some_due (t d : Nat) (s : FeederState)
    (h : s.resetDeadline = some d) (hle : d ≤ t) :
    advanceTo t s =
      { servo_reset_timer_callback s with
          resetDeadline := none
          reset_fires := s.reset_fires + 1 } := by
  simp only [advanceTo, h]
  rw [if_pos hle]

theorem set_servo_position_mem (duty : Nat) (s : FeederState) :
    PWM_MIN_VALUE ≤ (set_servo_position duty s).current_pwm_value ∧
    (set_servo_position duty s).current_pwm_value ≤ PWM_MAX_VALUE := by
  rw [set_servo_position_current]
  simp only [PWM_MIN_VALUE, PWM_MAX_VALUE]
  split_ifs <;> omega

/-- The ESP-IDF status values the handlers of this firmware return. -/
inductive esp_err where
  | ESP_OK
  | ESP_FAIL
deriving DecidableEq, Repr

/-- A parsed `/set_pwm` JSON body as `set_pwm_handler` inspects it:
a field is `some` exactly when it is present with the matching cJSON
type (`cJSON_IsNumber` for `pwm`/`delay`, `cJSON_IsString` for
`position`); numeric fields carry the `uint32_t` value produced by
the handler's cast. -/
structure SetPwmRequest where
  pwm : Option Nat
  position : Option String
  delay : Option Nat
deriving DecidableEq, Repr

/-- `set_pwm_handler` of `test_servo.c` after JSON parsing succeeded:
routes the `pwm` value by `position` kind (storing `default`/`feed`
values unclamped, and commanding the servo for `default`, `current`
and the position-less case), flags unknown position strings and a
missing/non-numeric `pwm` as `ESP_FAIL`, and afterwards —
unconditionally, whatever `err` is — stores a numeric `delay` field
into `reset_delay_ms`. -/
def set_pwm_handler (req : SetPwmRequest) (s : FeederState) : esp_err × FeederState :=
  let r :=
    match req.pwm with
    | some pwm_value =>
      match req.position with
      | some ptype =>
        if ptype = "default" then
          (esp_err.ESP_OK,
            set_servo_position pwm_value { s with default_pwm_position := pwm_value })
        else if ptype = "feed" then
          (esp_err.ESP_OK, { s with feed_pwm_value := pwm_value })
        else if ptype = "current" then
          (esp_err.ESP_OK, set_servo_position pwm_value s)
        else
          (esp_err.ESP_FAIL, s)
      | none => (esp_err.ESP_OK, set_servo_position pwm_value s)
    | none => (esp_err.ESP_FAIL, s)
  match req.delay with
  | some d => (r.1, { r.2 with reset_delay_ms := d })
  | none => r

/-- The external events this firmware reacts to: a `/feed` request, a
`/set_pwm` request, and time passing (which lets the reset timer
expire). -/
inductive Op where
  | feed (now : Nat)
  | setPwm (req : SetPwmRequest)
  | advance (t : Nat)
deriving DecidableEq, Repr

def applyOp (s : FeederState) : Op → FeederState
  | Op.feed now => feed_handler now s
  | Op.setPwm req => (set_pwm_handler req s).2
  | Op.advance t => advanceTo t s

def runOps (s : FeederState) : List Op → FeederState
  | [] => s
  | op :: ops => runOps (applyOp s op) ops

theorem applyOp_current_mem (s : FeederState) (op : Op)
    (h1 : PWM_MIN_VALUE ≤ s.current_pwm_value)
    (h2 : s.current_pwm_value ≤ PWM_MAX_VALUE) :
    PWM_MIN_VALUE ≤ (applyOp s op).current_pwm_value ∧
    (applyOp s op).current_pwm_value ≤ PWM_MAX_VALUE := by
  cases op with
  | feed now => exact set_servo_position_mem s.feed_pwm_value s
  | advance t =>
      cases hd : s.resetDeadline with
      | none =>
          rw [applyOp, advanceTo_none t s hd]
          exact ⟨h1, h2⟩
      | some d =>
          by_cases hle : d ≤ t
          · rw [applyOp, advanceTo_some_due t d s hd hle]
            exact set_servo_position_mem s.default_pwm_position s
          · rw [applyOp, advanceTo_some_not_due t d s hd (by omega)]
            exact ⟨h1, h2⟩
  | setPwm req =>
      rcases req with ⟨pwm, pos, dl⟩
      show PWM_MIN_VALUE ≤ (set_pwm_handler ⟨pwm, pos, dl⟩ s).2.current_pwm_value ∧
        (set_pwm_handler ⟨pwm, pos, dl⟩ s).2.current_pwm_value ≤ PWM_MAX_VALUE
      cases pwm with
      | none => cases dl <;> simp only [set_pwm_handler] <;> exact ⟨h1, h2⟩
      | some v =>
          cases pos with
          | none =>
              cases dl <;> simp only [set_pwm_handler] <;>
                exact set_servo_position_mem v s
          | some p =>
              by_cases hdef : p = "default"
              · cases dl <;> simp only [set_pwm_handler, hdef, if_pos, if_true] <;>
                  exact set_servo_position_mem v _
              · by_cases hfeed : p = "feed"
                · cases dl <;>
                    simp only [set_pwm_handler, hdef, hfeed, if_neg, if_false, if_true,
                      reduceIte] <;>
                    exact ⟨h1, h2⟩
                · by_cases hcur : p = "current"
                  · cases dl <;>
                      simp only [set_pwm_handler, hdef, hfeed, hcur, reduceIte] <;>
                      exact set_servo_position_mem v s
                  · cases dl <;>
                      simp only [set_pwm_handler, hdef, hfeed, hcur, reduceIte] <;>
                      exact ⟨h1, h2⟩

end CustomPwm

namespace AutoFeeder

/-- `SERVO_90_DEGREES` (`4096 * 0.5 / 20 = 102.4`, truncated at the
`uint32_t` call argument). -/
def SERVO_90_DEGREES : Nat := 102

/-- `SERVO_75_DEGREES` (`4096 * 1.5 / 20 = 307.2`, truncated). -/
def SERVO_75_DEGREES : Nat := 307

/-- The mutable globals of `automatic_animal_feeder.c` together with the
state of its two FreeRTOS timers: the one-shot `servo_reset_timer`
(period fixed at 5000 ms from creation) and the auto-reload
`auto_feed_timer`.  `autoDeadline` is the absolute time of the next
auto-feed expiry (`none` = stopped), `autoPeriod` the timer's current
period in ms.  `auto_fires` counts expiries of the auto-feed timer
(invocations of `auto_feed_timer_callback` by the timer facility); it is
observation-only. -/
structure AutoFeederState where
  servo_duty : Nat
  resetDeadline : Option Nat
  auto_feed_interval : Int
  autoDeadline : Option Nat
  autoPeriod : Nat
  auto_fires : Nat
deriving DecidableEq, Repr

/-- State after `app_main`: servo at 90 degrees, reset timer dormant,
auto-feed timer created with a default 1-hour period but not started,
`auto_feed_interval = 0`. -/
def initialAutoState : AutoFeederState :=
  { servo_duty := SERVO_90_DEGREES
    resetDeadline := none
    auto_feed_interval := 0
    autoDeadline := none
    autoPeriod := 60 * 60 * 1000
    auto_fires := 0 }

/-- `set_servo_position` of `automatic_animal_feeder.c`: no clamping in
this variant, the duty is written directly. -/
def set_servo_position (duty : Nat) (s : AutoFeederState) : AutoFeederState :=
  { s with servo_duty := duty }

/-- `do_feed`: move the servo to 75 degrees and `xTimerReset` the
one-shot reset timer, whose period is the fixed 5000 ms. -/
def do_feed (now : Nat) (s : AutoFeederState) : AutoFeederState :=
  let s := set_servo_position SERVO_75_DEGREES s
  { s with resetDeadline := some (now + 5000) }

/-- `servo_reset_timer_callback`: back to 90 degrees. -/
def servo_reset_timer_callback (s : AutoFeederState) : AutoFeederState :=
  set_servo_position SERVO_90_DEGREES s

/-- `feed_handler` (`/feed`): just `do_feed`. -/
def feed_handler (now : Nat) (s : AutoFeederState) : AutoFeederState :=
  do_feed now s

/-- `auto_feed_timer_callback`: just `do_feed`. -/
def auto_feed_timer_callback (now : Nat) (s : AutoFeederState) : AutoFeederState :=
  do_feed now s

/-- `get_timer_status_handler` (`/get_timer`): prints
`auto_feed_interval` with `%d`; modelled as returning the integer. -/
def get_timer_status_handler (s : AutoFeederState) : Int :=
  s.auto_feed_interval

/-- `update_auto_feed_timer`: store the interval, `xTimerStop` the
auto-feed timer, and for `minutes > 0` set the new period
(`minutes * 60 * 1000` ms) and start it (`xTimerChangePeriod` +
`xTimerStart` leave a running timer expiring one period from now). -/
def update_auto_feed_timer (minutes : Int) (now : Nat) (s : AutoFeederState) :
    AutoFeederState :=
  let s := { s with auto_feed_interval := minutes, autoDeadline := none }
  if minutes > 0 then
    let timer_period := minutes.toNat * 60 * 1000
    { s with autoPeriod := timer_period, autoDeadline := some (now + timer_period) }
  else s

/-- The timer facility expiring the one-shot reset timer: run the
callback, timer goes dormant. -/
def fireReset (s : AutoFeederState) : AutoFeederState :=
  { servo_reset_timer_callback s with resetDeadline := none }

/-- The timer facility expiring the auto-reload auto-feed timer at its
deadline `d`: run the callback at the expiry time, re-arm one period
after the expiry (FreeRTOS auto-reload), count the fire. -/
def fireAuto (d : Nat) (s : AutoFeederState) : AutoFeederState :=
  let s' := auto_feed_timer_callback d s
  { s' with autoDeadline := some (d + s.autoPeriod), auto_fires := s'.auto_fires + 1 }

/-- One step of the timer facility while time advances to `t`: expire
the earliest due timer, if any (on a tie the one-shot reset timer is
taken first; the order is irrelevant to the properties proved below). -/
def fireStep (t : Nat) (s : AutoFeederState) : Option AutoFeederState :=
  match s.resetDeadline, s.autoDeadline with
  | none, none => none
  | some r, none => if r ≤ t then some (fireReset s) else none
  | none, some a => if a ≤ t then some (fireAuto a s) else none
  | some r, some a =>
      if r ≤ t then
        if a ≤ t ∧ a < r then some (fireAuto a s) else some (fireReset s)
      else if a ≤ t then some (fireAuto a s)
      else none

/-- Let time pass until `t` with no intervening request, expiring due
timers in deadline order; `fuel` bounds the number of expiries processed
(every theorem below holds for every sufficiently large fuel). -/
def advanceB : Nat → Nat → AutoFeederState → AutoFeederState
  | 0, _, s => s
  | fuel + 1, t, s =>
      match fireStep t s with
      | none => s
      | some s' => advanceB fuel t s'

/-- The external events of this firmware variant: a `/feed` request, a
`/set_timer?minutes=N` request and time passing. -/
inductive OpB where
  | feed (now : Nat)
  | setTimer (minutes : Int) (now : Nat)
  | advance (fuel t : Nat)
deriving DecidableEq, Repr

def applyOpB (s : AutoFeederState) : OpB → AutoFeederState
  | OpB.feed now => feed_handler now s
  | OpB.setTimer m now => update_auto_feed_timer m now s
  | OpB.advance fuel t => advanceB fuel t s

def runB (s : AutoFeederState) : List OpB → AutoFeederState
  | [] => s
  | op :: ops => runB (applyOpB s op) ops

@[simp] theorem do_feed_duty (now : Nat) (s : AutoFeederState) :
    (do_feed now s).servo_duty = SERVO_75_DEGREES := rfl

@[simp] theorem do_feed_resetDeadline (now : Nat) (s : AutoFeederState) :
    (do_feed now s).resetDeadline = some (now + 5000) := rfl

@[simp] theorem do_feed_autoDeadline (now : Nat) (s : AutoFeederState) :
    (do_feed now s).autoDeadline = s.autoDeadline := rfl

@[simp] theorem do_feed_interval (now : Nat) (s : AutoFeederState) :
    (do_feed now s).auto_feed_interval = s.auto_feed_interval := rfl

@[simp] theorem do_feed_period (now : Nat) (s : AutoFeederState) :
    (do_feed now s).autoPeriod = s.autoPeriod := rfl

@[simp] theorem do_feed_fires (now : Nat) (s : AutoFeederState) :
    (do_feed now s).auto_fires = s.auto_fires := rfl

@[simp] theorem fireReset_autoDeadline (s : AutoFeederState) :
    (fireReset s).autoDeadline = s.autoDeadline := rfl

@[simp] theorem fireReset_resetDeadline (s : AutoFeederState) :
    (fireReset s).resetDeadline = none := rfl

@[simp] theorem fireReset_interval (s : AutoFeederState) :
    (fireReset s).auto_feed_interval = s.auto_feed_interval := rfl

@[simp] theorem fireReset_period (s : AutoFeederState) :
    (fireReset s).autoPeriod = s.autoPeriod := rfl

@[simp] theorem fireReset_fires (s : AutoFeederState) :
    (fireReset s).auto_fires = s.auto_fires := rfl

@[simp] theorem fireAuto_autoDeadline (d : Nat) (s : AutoFeederState) :
    (fireAuto d s).autoDeadline = some (d + s.autoPeriod) := rfl

@[simp] theorem fireAuto_resetDeadline (d : Nat) (s : AutoFeederState) :
    (fireAuto d s).resetDeadline = some (d + 5000) := rfl

@[simp] theorem fireAuto_interval (d : Nat) (s : AutoFeederState) :
    (fireAuto d s).auto_feed_interval = s.auto_feed_interval := rfl

@[simp] theorem fireAuto_period (d : Nat) (s : AutoFeederState) :
    (fireAuto d s).autoPeriod = s.autoPeriod := rfl

@[simp] theorem fireAuto_fires (d : Nat) (s : AutoFeederState) :
    (fireAuto d s).auto_fires = s.auto_fires + 1 := rfl

@[simp] theorem update_interval (m : Int) (now : Nat) (s : AutoFeederState) :
    (update_auto_feed_timer m now s).auto_feed_interval = m := by
  unfold update_auto_feed_timer
  split_ifs <;> rfl

theorem update_pos (m : Int) (now : Nat) (s : AutoFeederState) (h : 0 < m) :
    update_auto_feed_timer m now s =
      { s with auto_feed_interval := m
               autoPeriod := m.toNat * 60 * 1000
               autoDeadline := some (now + m.toNat * 60 * 1000) } := by
  unfold update_auto_feed_timer
  rw [if_pos h]

theorem update_nonpos (m : Int) (now : Nat) (s : AutoFeederState) (h : m ≤ 0) :
    update_auto_feed_timer m now s =
      { s with auto_feed_interval := m, autoDeadline := none } := by
  unfold update_auto_feed_timer
  rw [if_neg (by omega)]

theorem fireStep_eq_some (t : Nat) (s s' : AutoFeederState)
    (h : fireStep t s = some s') :
    (∃ r, s.resetDeadline = some r ∧ r ≤ t ∧ s' = fireReset s) ∨
    (∃ a, s.autoDeadline = some a ∧ a ≤ t ∧ s' = fireAuto a s) := by
  unfold fireStep at h
  rcases hr : s.resetDeadline with _ | r <;> rcases ha : s.autoDeadline with _ | a <;>
    rw [hr, ha] at h
  · simp at h
  · replace h : (if a ≤ t then some (fireAuto a s) else none) = some s' := h
    split_ifs at h with h1
    exact Or.inr ⟨a, rfl, h1, (Option.some.inj h).symm⟩
  · replace h : (if r ≤ t then some (fireReset s) else none) = some s' := h
    split_ifs at h with h1
    exact Or.inl ⟨r, rfl, h1, (Option.some.inj h).symm⟩
  · replace h : (if r ≤ t then
        if a ≤ t ∧ a < r then some (fireAuto a s) else some (fireReset s)
      else if a ≤ t then some (fireAuto a s) else none) = some s' := h
    split_ifs at h with h1 h2 h3
    · exact Or.inr ⟨a, rfl, h2.1, (Option.some.inj h).symm⟩
    · exact Or.inl ⟨r, rfl, h1, (Option.some.inj h).symm⟩
    · exact Or.inr ⟨a, rfl, h3, (Option.some.inj h).symm⟩

theorem fireStep_none_of_not_due (t : Nat) (s : AutoFeederState)
    (hr : ∀ r, s.resetDeadline = some r → t < r)
    (ha : ∀ a, s.autoDeadline = some a → t < a) :
    fireStep t s = none := by
  unfold fireStep
  rcases h1 : s.resetDeadline with _ | r <;> rcases h2 : s.autoDeadline with _ | a
  · rfl
  · have := ha a h2
    show (if a ≤ t then some (fireAuto a s) else none) = none
    rw [if_neg (by omega)]
  · have := hr r h1
    show (if r ≤ t then some (fireReset s) else none) = none
    rw [if_neg (by omega)]
  · have hha := ha a h2
    have hhr := hr r h1
    show (if r ≤ t then
        if a ≤ t ∧ a < r then some (fireAuto a s) else some (fireReset s)
      else if a ≤ t then some (fireAuto a s) else none) = none
    rw [if_neg (by omega), if_neg (by omega)]

theorem fireStep_isSome_of_auto_due (t a : Nat) (s : AutoFeederState)
    (ha : s.autoDeadline = some a) (h : a ≤ t) :
    fireStep t s ≠ none := by
  unfold fireStep
  rcases h1 : s.resetDeadline with _ | r <;> rw [ha]
  · show (if a ≤ t then some (fireAuto a s) else none) ≠ none
    rw [if_pos h]
    simp
  · show (if r ≤ t then
        if a ≤ t ∧ a < r then some (fireAuto a s) else some (fireReset s)
      else if a ≤ t then some (fireAuto a s) else none) ≠ none
    split_ifs <;> simp_all

theorem advanceB_stable (fuel t : Nat) (s : AutoFeederState)
    (hr : ∀ r, s.resetDeadline = some r → t < r)
    (ha : ∀ a, s.autoDeadline = some a → t < a) :
    advanceB fuel t s = s := by
  cases fuel with
  | zero => rfl
  | succ n => simp [advanceB, fireStep_none_of_not_due t s hr ha]

theorem advanceB_interval (fuel t : Nat) (s : AutoFeederState) :
    (advanceB fuel t s).auto_feed_interval = s.auto_feed_interval := by
  induction fuel generalizing s with
  | zero => rfl
  | succ n ih =>
      cases hf : fireStep t s with
      | none => simp [advanceB, hf]
      | some s' =>
          rw [show advanceB (n + 1) t s = advanceB n t s' by simp [advanceB, hf]]
          rw [ih s']
          rcases fireStep_eq_some t s s' hf with ⟨r, _, _, rfl⟩ | ⟨a, _, _, rfl⟩ <;> simp

theorem advanceB_auto_none (fuel t : Nat) (s : AutoFeederState)
    (h : s.autoDeadline = none) :
    (advanceB fuel t s).autoDeadline = none ∧
    (advanceB fuel t s).auto_fires = s.auto_fires := by
  induction fuel generalizing s with
  | zero => exact ⟨h, rfl⟩
  | succ n ih =>
      cases hf : fireStep t s with
      | none => simp [advanceB, hf, h]
      | some s' =>
          rw [show advanceB (n + 1) t s = advanceB n t s' by simp [advanceB, hf]]
          rcases fireStep_eq_some t s s' hf with ⟨r, _, _, rfl⟩ | ⟨a, ha, _, rfl⟩
          · simpa using ih (fireReset s) (by simp [h])
          · rw [h] at ha
            exact Option.noConfusion ha

theorem advanceB_auto_not_due (fuel t d : Nat) (s : AutoFeederState)
    (h : s.autoDeadline = some d) (hlt : t < d) :
    (advanceB fuel t s).autoDeadline = some d ∧
    (advanceB fuel t s).auto_fires = s.auto_fires := by
  induction fuel generalizing s with
  | zero => exact ⟨h, rfl⟩
  | succ n ih =>
      cases hf : fireStep t s with
      | none => simp [advanceB, hf, h]
      | some s' =>
          rw [show advanceB (n + 1) t s = advanceB n t s' by simp [advanceB, hf]]
          rcases fireStep_eq_some t s s' hf with ⟨r, _, _, rfl⟩ | ⟨a, ha, hat, rfl⟩
          · simpa using ih (fireReset s) (by simp [h])
          · rw [h] at ha
            obtain rfl := Option.some.inj ha
            omega

theorem advanceB_autoDeadline_none_inv (fuel t : Nat) (s : AutoFeederState)
    (h : (advanceB fuel t s).autoDeadline = none) : s.autoDeadline = none := by
  induction fuel generalizing s with
  | zero => exact h
  | succ n ih =>
      cases hf : fireStep t s with
      | none =>
          rw [show advanceB (n + 1) t s = s by simp [advanceB, hf]] at h
          exact h
      | some s' =>
          rw [show advanceB (n + 1) t s = advanceB n t s' by simp [advanceB, hf]] at h
          have h' := ih s' h
          rcases fireStep_eq_some t s s' hf with ⟨r, _, _, rfl⟩ | ⟨a, ha, _, rfl⟩
          · simpa using h'
          · simp at h'

theorem advanceB_first_auto_fire (fuel t d : Nat) (s : AutoFeederState)
    (ha : s.autoDeadline = some d) (hd : d ≤ t)
    (hp : t < d + s.autoPeriod) (h5 : t < d + 5000) (hfuel : 2 ≤ fuel) :
    (advanceB fuel t s).auto_fires = s.auto_fires + 1 ∧
    (advanceB fuel t s).autoDeadline = some (d + s.autoPeriod) := by
  obtain ⟨n, rfl⟩ : ∃ n, fuel = n + 2 := ⟨fuel - 2, by omega⟩
  cases hf : fireStep t s with
  | none => exact absurd hf (fireStep_isSome_of_auto_due t d s ha hd)
  | some s1 =>
      rw [show advanceB (n + 2) t s = advanceB (n + 1) t s1 by simp [advanceB, hf]]
      rcases fireStep_eq_some t s s1 hf with ⟨r, hrq, hrt, rfl⟩ | ⟨a, haq, hat, rfl⟩
      · have ha1 : (fireReset s).autoDeadline = some d := by simp [ha]
        cases hf2 : fireStep t (fireReset s) with
        | none => exact absurd hf2 (fireStep_isSome_of_auto_due t d _ ha1 hd)
        | some s2 =>
            rw [show advanceB (n + 1) t (fireReset s) = advanceB n t s2 by
              simp [advanceB, hf2]]
            rcases fireStep_eq_some t _ s2 hf2 with ⟨r2, hr2, _, rfl⟩ | ⟨a2, ha2, _, rfl⟩
            · simp at hr2
            · rw [ha1] at ha2
              obtain rfl := Option.some.inj ha2
              rw [advanceB_stable n t (fireAuto d (fireReset s))
                (by intro r' hr'; simp at hr'; omega)
                (by intro a' ha'; simp at ha'; omega)]
              exact ⟨by simp, by simp⟩
      · rw [ha] at haq
        obtain rfl := Option.some.inj haq
        rw [advanceB_stable (n + 1) t (fireAuto d s)
          (by intro r' hr'; simp at hr'; omega)
          (by intro a' ha'; simp at ha'; omega)]
        exact ⟨by simp, by simp⟩

theorem runB_no_auto (ops : List OpB) (s : AutoFeederState)
    (h : s.autoDeadline = none)
    (hops : ∀ m t, OpB.setTimer m t ∈ ops → m ≤ 0) :
    (runB s ops).autoDeadline = none ∧ (runB s ops).auto_fires = s.auto_fires := by
  induction ops generalizing s with
  | nil => exact ⟨h, rfl⟩
  | cons op rest ih =>
      have hrest : ∀ m t, OpB.setTimer m t ∈ rest → m ≤ 0 :=
        fun m t hm => hops m t (List.mem_cons_of_mem _ hm)
      cases op with
      | feed now =>
          have hstep : (feed_handler now s).autoDeadline = none := by
            simp [feed_handler, h]
          obtain ⟨hA, hF⟩ := ih (feed_handler now s) hstep hrest
          exact ⟨hA, hF.trans (by simp [feed_handler])⟩
      | setTimer m now =>
          have hm := hops m now (List.mem_cons_self _ _)
          have hstep : (update_auto_feed_timer m now s).autoDeadline = none := by
            rw [update_nonpos m now s hm]
          obtain ⟨hA, hF⟩ := ih _ hstep hrest
          refine ⟨hA, hF.trans ?_⟩
          rw [update_nonpos m now s hm]
      | advance fuel t =>
          obtain ⟨hA0, hF0⟩ := advanceB_auto_none fuel t s h
          obtain ⟨hA, hF⟩ := ih _ hA0 hrest
          exact ⟨hA, hF.trans hF0⟩

/-- The spec-side observation for the `/get_timer` claim: the argument
of the last `setTimer` event in the sequence, starting from `acc`. -/
def specLastConfiguredInterval (acc : Int) : List OpB → Int
  | [] => acc
  | OpB.setTimer m _ :: rest => specLastConfiguredInterval m rest
  | OpB.feed _ :: rest => specLastConfiguredInterval acc rest
  | OpB.advance _ _ :: rest => specLastConfiguredInterval acc rest

theorem runB_interval_eq (ops : List OpB) (s : AutoFeederState) :
    (runB s ops).auto_feed_interval
      = specLastConfiguredInterval s.auto_feed_interval ops := by
  induction ops generalizing s with
  | nil => rfl
  | cons op rest ih =>
      cases op with
      | feed now =>
          exact (ih (feed_handler now s)).trans
            (by simp [feed_handler, specLastConfiguredInterval])
      | setTimer m now =>
          exact (ih _).trans (by simp [applyOpB, specLastConfiguredInterval])
      | advance fuel t =>
          exact (ih _).trans
            (by simp [applyOpB, specLastConfiguredInterval, advanceB_interval])

theorem runB_disabled_zero (ops : List OpB) (s : AutoFeederState)
    (hs : s.autoDeadline = none → s.auto_feed_interval = 0)
    (hops : ∀ m t, OpB.setTimer m t ∈ ops → 0 ≤ m) :
    (runB s ops).autoDeadline = none → (runB s ops).auto_feed_interval = 0 := by
  induction ops generalizing s with
  | nil => exact hs
  | cons op rest ih =>
      have hrest : ∀ m t, OpB.setTimer m t ∈ rest → 0 ≤ m :=
        fun m t hm => hops m t (List.mem_cons_of_mem _ hm)
      cases op with
      | feed now =>
          refine ih (feed_handler now s) ?_ hrest
          intro hnone
          have := hs (by simpa [feed_handler] using hnone)
          simpa [feed_handler] using this
      | setTimer m now =>
          refine ih _ ?_ hrest
          intro hnone
          simp only [applyOpB] at hnone ⊢
          have hm0 : 0 ≤ m := hops m now (List.mem_cons_self _ _)
          by_cases hpos : 0 < m
          · rw [update_pos m now s hpos] at hnone
            exact absurd hnone (by simp)
          · have hmeq : m = 0 := by omega
            subst hmeq
            simp
      | advance fuel t =>
          refine ih _ ?_ hrest
          intro hnone
          simp only [applyOpB] at hnone ⊢
          have hsnone := advanceB_autoDeadline_none_inv fuel t s hnone
          rw [advanceB_interval]
          exact hs hsnone

end AutoFeeder

/-- C6: after `update_auto_feed_timer 0` (in any state, including after
a prior positive interval), the pending auto-feed expiry is cancelled
(`autoDeadline = none`), the stored interval is 0, and during any
subsequent sequence of feeds, time advances, and `setTimer` requests
with non-positive arguments — i.e. until a later `setTimer` with a
positive value — the auto-feed timer never fires. -/
theorem setInterval_zero_disables
    (s : AutoFeeder.AutoFeederState) (now : Nat) (ops : List AutoFeeder.OpB)
    (hops : ∀ m t, AutoFeeder.OpB.setTimer m t ∈ ops → m ≤ 0) :
    (AutoFeeder.update_auto_feed_timer 0 now s).autoDeadline = none ∧
    (AutoFeeder.update_auto_feed_timer 0 now s).auto_feed_interval = 0 ∧
    (AutoFeeder.runB (AutoFeeder.update_auto_feed_timer 0 now s) ops).auto_fires
      = s.auto_fires ∧
    (AutoFeeder.runB (AutoFeeder.update_auto_feed_timer 0 now s) ops).autoDeadline
      = none := by
  have h0 : (AutoFeeder.update_auto_feed_timer 0 now s).autoDeadline = none := by
    rw [AutoFeeder.update_nonpos 0 now s le_rfl]
  obtain ⟨hA, hF⟩ := AutoFeeder.runB_no_auto ops _ h0 hops
  refine ⟨h0, by simp, ?_, hA⟩
  rw [hF, AutoFeeder.update_nonpos 0 now s le_rfl]

/-- Witness for C6: a positive interval of 30 minutes is set, then
disabled; advancing far into the future, feeding manually and setting
the interval to 0 again never produce an automatic fire. -/
theorem setInterval_zero_disables_witness :
    (AutoFeeder.update_auto_feed_timer 0 60000
      (AutoFeeder.update_auto_feed_timer 30 0 AutoFeeder.initialAutoState)).autoDeadline
      = none ∧
    (AutoFeeder.update_auto_feed_timer 0 60000
      (AutoFeeder.update_auto_feed_timer 30 0 AutoFeeder.initialAutoState)).auto_feed_interval
      = 0 ∧
    (AutoFeeder.runB (AutoFeeder.update_auto_feed_timer 0 60000
        (AutoFeeder.update_auto_feed_timer 30 0 AutoFeeder.initialAutoState))
      [AutoFeeder.OpB.advance 5 10000000, AutoFeeder.OpB.feed 70000,
       AutoFeeder.OpB.setTimer 0 80000]).auto_fires = 0 ∧
    (AutoFeeder.runB (AutoFeeder.update_auto_feed_timer 0 60000
        (AutoFeeder.update_auto_feed_timer 30 0 AutoFeeder.initialAutoState))
      [AutoFeeder.OpB.advance 5 10000000, AutoFeeder.OpB.feed 70000,
       AutoFeeder.OpB.setTimer 0 80000]).autoDeadline = none := by
  have h := setInterval_zero_disables
    (AutoFeeder.update_auto_feed_timer 30 0 AutoFeeder.initialAutoState) 60000
    [AutoFeeder.OpB.advance 5 10000000, AutoFeeder.OpB.feed 70000,
     AutoFeeder.OpB.setTimer 0 80000]
    (by
      intro m t hm
      simp at hm
      omega)
  simpa [AutoFeeder.update_auto_feed_timer, AutoFeeder.initialAutoState] using h

/-- C7: for positive intervals `N` then `M` set before the first fire,
the old countdown is discarded: no auto fire happens up to the second
call, the deadline after the second call is `tM + M` minutes, no auto
fire happens strictly before it (in particular not at `tN + N`
minutes), and exactly one auto fire has happened once time reaches
`tM + M` minutes. -/
theorem setInterval_rearms_from_second_call
    (s : AutoFeeder.AutoFeederState) (tN tM tb : Nat) (N M : Int)
    (fuel0 fuelb fuelc : Nat)
    (hN : 0 < N) (hM : 0 < M)
    (h12 : tN ≤ tM)
    (hbefore : tM < tN + N.toNat * 60 * 1000)
    (htb : tb < tM + M.toNat * 60 * 1000)
    (hfc : 2 ≤ fuelc) :
    (AutoFeeder.advanceB fuel0 tM
      (AutoFeeder.update_auto_feed_timer N tN s)).auto_fires = s.auto_fires ∧
    (AutoFeeder.update_auto_feed_timer M tM (AutoFeeder.advanceB fuel0 tM
      (AutoFeeder.update_auto_feed_timer N tN s))).autoDeadline
      = some (tM + M.toNat * 60 * 1000) ∧
    (AutoFeeder.advanceB fuelb tb
      (AutoFeeder.update_auto_feed_timer M tM (AutoFeeder.advanceB fuel0 tM
        (AutoFeeder.update_auto_feed_timer N tN s)))).auto_fires = s.auto_fires ∧
    (AutoFeeder.advanceB fuelc (tM + M.toNat * 60 * 1000)
      (AutoFeeder.update_auto_feed_timer M tM (AutoFeeder.advanceB fuel0 tM
        (AutoFeeder.update_auto_feed_timer N tN s)))).auto_fires
      = s.auto_fires + 1 := by
  have hupdN := AutoFeeder.update_pos N tN s hN
  have hA1 : (AutoFeeder.update_auto_feed_timer N tN s).autoDeadline
      = some (tN + N.toNat * 60 * 1000) := by rw [hupdN]
  have hadv1 := AutoFeeder.advanceB_auto_not_due fuel0 tM (tN + N.toNat * 60 * 1000)
    (AutoFeeder.update_auto_feed_timer N tN s) hA1 (by omega)
  have hc1 : (AutoFeeder.advanceB fuel0 tM
      (AutoFeeder.update_auto_feed_timer N tN s)).auto_fires = s.auto_fires :=
    hadv1.2.trans (by rw [hupdN])
  have hupdM := AutoFeeder.update_pos M tM (AutoFeeder.advanceB fuel0 tM
    (AutoFeeder.update_auto_feed_timer N tN s)) hM
  have hA2 : (AutoFeeder.update_auto_feed_timer M tM (AutoFeeder.advanceB fuel0 tM
      (AutoFeeder.update_auto_feed_timer N tN s))).autoDeadline
      = some (tM + M.toNat * 60 * 1000) := by rw [hupdM]
  have hf2 : (AutoFeeder.update_auto_feed_timer M tM (AutoFeeder.advanceB fuel0 tM
      (AutoFeeder.update_auto_feed_timer N tN s))).auto_fires = s.auto_fires := by
    rw [hupdM]
    exact hc1
  have hper : (AutoFeeder.update_auto_feed_timer M tM (AutoFeeder.advanceB fuel0 tM
      (AutoFeeder.update_auto_feed_timer N tN s))).autoPeriod
      = M.toNat * 60 * 1000 := by rw [hupdM]
  have hc3 := (AutoFeeder.advanceB_auto_not_due fuelb tb (tM + M.toNat * 60 * 1000)
    _ hA2 htb).2.trans hf2
  have hMpos : 0 < M.toNat := by omega
  have hfire := AutoFeeder.advanceB_first_auto_fire fuelc (tM + M.toNat * 60 * 1000)
    (tM + M.toNat * 60 * 1000) _ hA2 le_rfl (by rw [hper]; omega) (by omega) hfc
  exact ⟨hc1, hA2, hc3, hfire.1.trans (by rw [hf2])⟩

/-- Witness for C7: interval 2 minutes at 0 ms, then 1 minute at
60000 ms; no fire through 100000 ms, one fire by 120000 ms. -/
theorem setInterval_rearms_from_second_call_witness :
    (AutoFeeder.advanceB 3 60000
      (AutoFeeder.update_auto_feed_timer 2 0 AutoFeeder.initialAutoState)).auto_fires = 0 ∧
    (AutoFeeder.update_auto_feed_timer 1 60000 (AutoFeeder.advanceB 3 60000
      (AutoFeeder.update_auto_feed_timer 2 0 AutoFeeder.initialAutoState))).autoDeadline
      = some 120000 ∧
    (AutoFeeder.advanceB 3 100000
      (AutoFeeder.update_auto_feed_timer 1 60000 (AutoFeeder.advanceB 3 60000
        (AutoFeeder.update_auto_feed_timer 2 0 AutoFeeder.initialAutoState)))).auto_fires
      = 0 ∧
    (AutoFeeder.advanceB 2 120000
      (AutoFeeder.update_auto_feed_timer 1 60000 (AutoFeeder.advanceB 3 60000
        (AutoFeeder.update_auto_feed_timer 2 0 AutoFeeder.initialAutoState)))).auto_fires
      = 1 := by
  have h := setInterval_rearms_from_second_call AutoFeeder.initialAutoState
    0 60000 100000 2 1 3 3 2
    (by decide) (by decide) (by decide) (by decide) (by decide) (by decide)
  simpa [AutoFeeder.initialAutoState] using h

/-- C8 counterexample: `update_auto_feed_timer (-5)` (reachable via
`/set_timer?minutes=-5`, since `atoi` parses negative values) disables
the schedule (no pending fire), yet `/get_timer` then reports `-5`,
not 0 — "returns 0 whenever the schedule is disabled" fails. -/
theorem neg_interval_disabled_but_nonzero :
    (AutoFeeder.update_auto_feed_timer (-5) 0 AutoFeeder.initialAutoState).autoDeadline
      = none ∧
    AutoFeeder.get_timer_status_handler
      (AutoFeeder.update_auto_feed_timer (-5) 0 AutoFeeder.initialAutoState) = -5 ∧
    AutoFeeder.get_timer_status_handler
      (AutoFeeder.update_auto_feed_timer (-5) 0 AutoFeeder.initialAutoState) ≠ 0 := by
  decide

/-- C8 amended: `/get_timer` always reports the argument of the last
`setTimer` request (0 if there was none); and provided every `setTimer`
argument was non-negative, it reports 0 whenever the auto-feed schedule
is disabled (no pending fire), including when it was never started.  (A
negative `setTimer` argument disables the schedule but is reported
as-is.) -/
theorem get_timer_reports_last_configured (ops : List AutoFeeder.OpB)
    (hops : ∀ m t, AutoFeeder.OpB.setTimer m t ∈ ops → 0 ≤ m) :
    AutoFeeder.get_timer_status_handler
        (AutoFeeder.runB AutoFeeder.initialAutoState ops)
      = AutoFeeder.specLastConfiguredInterval 0 ops ∧
    ((AutoFeeder.runB AutoFeeder.initialAutoState ops).autoDeadline = none →
      AutoFeeder.get_timer_status_handler
        (AutoFeeder.runB AutoFeeder.initialAutoState ops) = 0) := by
  constructor
  · exact AutoFeeder.runB_interval_eq ops AutoFeeder.initialAutoState
  · exact AutoFeeder.runB_disabled_zero ops AutoFeeder.initialAutoState
      (fun _ => rfl) hops

/-- Witness for C8 (amended): set 30 minutes, advance, then disable —
`/get_timer` reports the last configured value 0; the schedule is
disabled and 0 is reported. -/
theorem get_timer_reports_last_configured_witness :
    AutoFeeder.get_timer_status_handler (AutoFeeder.runB AutoFeeder.initialAutoState
        [AutoFeeder.OpB.setTimer 30 0, AutoFeeder.OpB.advance 3 100,
         AutoFeeder.OpB.setTimer 0 200])
      = AutoFeeder.specLastConfiguredInterval 0
        [AutoFeeder.OpB.setTimer 30 0, AutoFeeder.OpB.advance 3 100,
         AutoFeeder.OpB.setTimer 0 200] ∧
    ((AutoFeeder.runB AutoFeeder.initialAutoState
        [AutoFeeder.OpB.setTimer 30 0, AutoFeeder.OpB.advance 3 100,
         AutoFeeder.OpB.setTimer 0 200]).autoDeadline = none →
      AutoFeeder.get_timer_status_handler (AutoFeeder.runB AutoFeeder.initialAutoState
        [AutoFeeder.OpB.setTimer 30 0, AutoFeeder.OpB.advance 3 100,
         AutoFeeder.OpB.setTimer 0 200]) = 0) :=
  get_timer_reports_last_configured
    [AutoFeeder.OpB.setTimer 30 0, AutoFeeder.OpB.advance 3 100,
     AutoFeeder.OpB.setTimer 0 200]
    (by
      intro m t hm
      simp at hm
      omega)

/-- C9: an auto-feed timer expiry invokes exactly the state transition
of a manual `/feed` request — both `auto_feed_timer_callback` and
`feed_handler` are `do_feed`, so the resulting servo command and armed
reset deadline are identical and nothing downstream can distinguish a
scheduled fire from a manual one. -/
theorem auto_fire_equals_manual_feed (now : Nat) (s : AutoFeeder.AutoFeederState) :
    AutoFeeder.auto_feed_timer_callback now s = AutoFeeder.feed_handler now s ∧
    AutoFeeder.auto_feed_timer_callback now s = AutoFeeder.do_feed now s ∧
    (AutoFeeder.auto_feed_timer_callback now s).servo_duty
      = AutoFeeder.SERVO_75_DEGREES ∧
    (AutoFeeder.auto_feed_timer_callback now s).resetDeadline = some (now + 5000) :=
  ⟨rfl, rfl, rfl, rfl⟩

/-- C1: from any state, `feed_handler` at time `now` immediately commands
the actuator to `feed_pwm_value` (stored positions assumed within the
clamp range) and arms the one-shot reset deadline at
`now + reset_delay_ms`; when that deadline expires with no intervening
feed, the actuator is commanded to `default_pwm_position` and the timer
is dormant. -/
theorem feed_cycle_immediate_and_reset
    (s : CustomPwm.FeederState) (now t : Nat)
    (hf1 : CustomPwm.PWM_MIN_VALUE ≤ s.feed_pwm_value)
    (hf2 : s.feed_pwm_value ≤ CustomPwm.PWM_MAX_VALUE)
    (hd1 : CustomPwm.PWM_MIN_VALUE ≤ s.default_pwm_position)
    (hd2 : s.default_pwm_position ≤ CustomPwm.PWM_MAX_VALUE)
    (ht : now + s.reset_delay_ms ≤ t) :
    (CustomPwm.feed_handler now s).current_pwm_value = s.feed_pwm_value ∧
    (CustomPwm.feed_handler now s).resetDeadline = some (now + s.reset_delay_ms) ∧
    (CustomPwm.advanceTo t (CustomPwm.feed_handler now s)).current_pwm_value
      = s.default_pwm_position ∧
    (CustomPwm.advanceTo t (CustomPwm.feed_handler now s)).resetDeadline = none := by
  refine ⟨?_, ?_, ?_, ?_⟩
  · simpa [CustomPwm.feed_handler] using
      CustomPwm.set_servo_position_current_of_mem s.feed_pwm_value s hf1 hf2
  · simp [CustomPwm.feed_handler]
  · simp only [CustomPwm.feed_handler, CustomPwm.advanceTo,
      CustomPwm.set_servo_position_deadline, CustomPwm.servo_reset_timer_callback]
    simp only [CustomPwm.set_servo_position_delay, ht, if_true]
    simpa using
      CustomPwm.set_servo_position_current_of_mem s.default_pwm_position _ hd1 hd2
  · simp [CustomPwm.feed_handler, CustomPwm.advanceTo, ht]

/-- Witness for C1 at the firmware's compiled-in defaults. -/
theorem feed_cycle_immediate_and_reset_witness :
    (CustomPwm.feed_handler 0 CustomPwm.initialState).current_pwm_value = 256 ∧
    (CustomPwm.feed_handler 0 CustomPwm.initialState).resetDeadline = some 2000 ∧
    (CustomPwm.advanceTo 2001 (CustomPwm.feed_handler 0 CustomPwm.initialState)).current_pwm_value = 307 ∧
    (CustomPwm.advanceTo 2001 (CustomPwm.feed_handler 0 CustomPwm.initialState)).resetDeadline = none := by
  have h := feed_cycle_immediate_and_reset CustomPwm.initialState 0 2001
    (by decide) (by decide) (by decide) (by decide) (by decide)
  simpa [CustomPwm.initialState] using h

/-- C2: two `feed_handler` calls at `t1 ≤ t2` with `t2` within
`reset_delay_ms` of `t1`: the first armed deadline has not expired at the
second call, the second call re-arms the deadline to
`t2 + reset_delay_ms` (cancel-and-restart), no reset fires strictly
before `t2 + reset_delay_ms`, exactly one reset fires once that deadline
is reached, and advancing further never produces a second reset. -/
theorem double_feed_single_reset
    (s : CustomPwm.FeederState) (t1 t2 tb ta ta2 : Nat)
    (h12 : t1 ≤ t2)
    (hlt : t2 < t1 + s.reset_delay_ms)
    (htb : tb < t2 + s.reset_delay_ms)
    (hta : t2 + s.reset_delay_ms ≤ ta)
    (hta2 : ta ≤ ta2) :
    CustomPwm.advanceTo t2 (CustomPwm.feed_handler t1 s)
      = CustomPwm.feed_handler t1 s ∧
    (CustomPwm.feed_handler t2 (CustomPwm.advanceTo t2 (CustomPwm.feed_handler t1 s))).resetDeadline
      = some (t2 + s.reset_delay_ms) ∧
    (CustomPwm.advanceTo tb
      (CustomPwm.feed_handler t2 (CustomPwm.advanceTo t2 (CustomPwm.feed_handler t1 s)))).reset_fires
      = s.reset_fires ∧
    (CustomPwm.advanceTo tb
      (CustomPwm.feed_handler t2 (CustomPwm.advanceTo t2 (CustomPwm.feed_handler t1 s)))).resetDeadline
      = some (t2 + s.reset_delay_ms) ∧
    (CustomPwm.advanceTo ta
      (CustomPwm.feed_handler t2 (CustomPwm.advanceTo t2 (CustomPwm.feed_handler t1 s)))).reset_fires
      = s.reset_fires + 1 ∧
    (CustomPwm.advanceTo ta
      (CustomPwm.feed_handler t2 (CustomPwm.advanceTo t2 (CustomPwm.feed_handler t1 s)))).resetDeadline
      = none ∧
    (CustomPwm.advanceTo ta2 (CustomPwm.advanceTo ta
      (CustomPwm.feed_handler t2 (CustomPwm.advanceTo t2 (CustomPwm.feed_handler t1 s))))).reset_fires
      = s.reset_fires + 1 := by
  have hA : CustomPwm.advanceTo t2 (CustomPwm.feed_handler t1 s)
      = CustomPwm.feed_handler t1 s :=
    CustomPwm.advanceTo_some_not_due t2 (t1 + s.reset_delay_ms) _ (by simp) (by omega)
  rw [hA]
  have hD : (CustomPwm.feed_handler t2 (CustomPwm.feed_handler t1 s)).resetDeadline
      = some (t2 + s.reset_delay_ms) := by simp
  have hB : CustomPwm.advanceTo tb
      (CustomPwm.feed_handler t2 (CustomPwm.feed_handler t1 s))
      = CustomPwm.feed_handler t2 (CustomPwm.feed_handler t1 s) :=
    CustomPwm.advanceTo_some_not_due tb (t2 + s.reset_delay_ms) _ hD (by omega)
  have hC := CustomPwm.advanceTo_some_due ta (t2 + s.reset_delay_ms)
    (CustomPwm.feed_handler t2 (CustomPwm.feed_handler t1 s)) hD hta
  refine ⟨rfl, hD, ?_, ?_, ?_, ?_, ?_⟩
  · rw [hB]; simp
  · rw [hB, hD]
  · rw [hC]; simp
  · rw [hC]
  · rw [hC]
    rw [CustomPwm.advanceTo_none ta2 _ rfl]
    simp

/-- Witness for C2: two feeds at 0 ms and 1000 ms with the default
2000 ms delay; checked before (2999 ms) and at/after (3000, 10000 ms)
the re-armed deadline. -/
theorem double_feed_single_reset_witness :
    CustomPwm.advanceTo 1000 (CustomPwm.feed_handler 0 CustomPwm.initialState)
      = CustomPwm.feed_handler 0 CustomPwm.initialState ∧
    (CustomPwm.feed_handler 1000 (CustomPwm.advanceTo 1000 (CustomPwm.feed_handler 0 CustomPwm.initialState))).resetDeadline
      = some 3000 ∧
    (CustomPwm.advanceTo 2999
      (CustomPwm.feed_handler 1000 (CustomPwm.advanceTo 1000 (CustomPwm.feed_handler 0 CustomPwm.initialState)))).reset_fires
      = 0 ∧
    (CustomPwm.advanceTo 2999
      (CustomPwm.feed_handler 1000 (CustomPwm.advanceTo 1000 (CustomPwm.feed_handler 0 CustomPwm.initialState)))).resetDeadline
      = some 3000 ∧
    (CustomPwm.advanceTo 3000
      (CustomPwm.feed_handler 1000 (CustomPwm.advanceTo 1000 (CustomPwm.feed_handler 0 CustomPwm.initialState)))).reset_fires
      = 1 ∧
    (CustomPwm.advanceTo 3000
      (CustomPwm.feed_handler 1000 (CustomPwm.advanceTo 1000 (CustomPwm.feed_handler 0 CustomPwm.initialState)))).resetDeadline
      = none ∧
    (CustomPwm.advanceTo 10000 (CustomPwm.advanceTo 3000
      (CustomPwm.feed_handler 1000 (CustomPwm.advanceTo 1000 (CustomPwm.feed_handler 0 CustomPwm.initialState))))).reset_fires
      = 1 := by
  have h := double_feed_single_reset CustomPwm.initialState 0 1000 2999 3000 10000
    (by decide) (by decide) (by decide) (by decide) (by decide)
  simpa [CustomPwm.initialState] using h

/-- C3: `set_servo_position` is a total function on requested duties:
it commands exactly the requested value when it lies within
`[PWM_MIN_VALUE, PWM_MAX_VALUE]`, the lower bound when below, the upper
bound when above, and the commanded value always lies in the range. -/
theorem set_servo_position_clamps (duty : Nat) (s : CustomPwm.FeederState) :
    (CustomPwm.PWM_MIN_VALUE ≤ duty → duty ≤ CustomPwm.PWM_MAX_VALUE →
      (CustomPwm.set_servo_position duty s).current_pwm_value = duty) ∧
    (duty < CustomPwm.PWM_MIN_VALUE →
      (CustomPwm.set_servo_position duty s).current_pwm_value = CustomPwm.PWM_MIN_VALUE) ∧
    (CustomPwm.PWM_MAX_VALUE < duty →
      (CustomPwm.set_servo_position duty s).current_pwm_value = CustomPwm.PWM_MAX_VALUE) ∧
    CustomPwm.PWM_MIN_VALUE ≤ (CustomPwm.set_servo_position duty s).current_pwm_value ∧
    (CustomPwm.set_servo_position duty s).current_pwm_value ≤ CustomPwm.PWM_MAX_VALUE := by
  simp only [CustomPwm.set_servo_position_current, CustomPwm.PWM_MIN_VALUE,
    CustomPwm.PWM_MAX_VALUE]
  refine ⟨?_, ?_, ?_, ?_, ?_⟩ <;> (intros; split_ifs <;> omega)

/-- Witness for C3 at an in-range, a too-small and a too-large duty. -/
theorem set_servo_position_clamps_witness :
    (CustomPwm.set_servo_position 300 CustomPwm.initialState).current_pwm_value = 300 ∧
    (CustomPwm.set_servo_position 50 CustomPwm.initialState).current_pwm_value = 102 ∧
    (CustomPwm.set_servo_position 600 CustomPwm.initialState).current_pwm_value = 512 :=
  ⟨(set_servo_position_clamps 300 CustomPwm.initialState).1 (by decide) (by decide),
   (set_servo_position_clamps 50 CustomPwm.initialState).2.1 (by decide),
   (set_servo_position_clamps 600 CustomPwm.initialState).2.2.1 (by decide)⟩

/-- C4 counterexample: the `/set_pwm` request `{pwm: 600, position: "feed"}`
succeeds (`ESP_OK`) and stores `feed_pwm_value = 600`, which lies outside
the clamp range (`600 > PWM_MAX_VALUE = 512`) — the stored feed position is
not re-clamped at mutation, contradicting the claim. -/
theorem stored_feed_escapes_range :
    (CustomPwm.set_pwm_handler ⟨some 600, some "feed", none⟩ CustomPwm.initialState).1
      = CustomPwm.esp_err.ESP_OK ∧
    (CustomPwm.set_pwm_handler ⟨some 600, some "feed", none⟩ CustomPwm.initialState).2.feed_pwm_value
      = 600 ∧
    ¬ (CustomPwm.set_pwm_handler ⟨some 600, some "feed", none⟩ CustomPwm.initialState).2.feed_pwm_value
        ≤ CustomPwm.PWM_MAX_VALUE := by
  decide

/-- C4 amended: the firmware does not re-clamp stored settings, and no
clamp-range mutation operation exists (the range is the compile-time
constants `PWM_MIN_VALUE`/`PWM_MAXVALUE`); stored `default_pwm_position`
and `feed_pwm_value` may lie outside the range.  What the code does
enforce is that clamping is applied on every command to the actuator, so
after any sequence of requests and timer expiries from the initial state
the commanded position `current_pwm_value` always lies within
`[PWM_MIN_VALUE, PWM_MAX_VALUE]`. -/
theorem commanded_position_always_in_range (ops : List CustomPwm.Op) :
    CustomPwm.PWM_MIN_VALUE
      ≤ (CustomPwm.runOps CustomPwm.initialState ops).current_pwm_value ∧
    (CustomPwm.runOps CustomPwm.initialState ops).current_pwm_value
      ≤ CustomPwm.PWM_MAX_VALUE := by
  have main : ∀ (l : List CustomPwm.Op) (s : CustomPwm.FeederState),
      CustomPwm.PWM_MIN_VALUE ≤ s.current_pwm_value →
      s.current_pwm_value ≤ CustomPwm.PWM_MAX_VALUE →
      CustomPwm.PWM_MIN_VALUE ≤ (CustomPwm.runOps s l).current_pwm_value ∧
      (CustomPwm.runOps s l).current_pwm_value ≤ CustomPwm.PWM_MAX_VALUE := by
    intro l
    induction l with
    | nil => exact fun s h1 h2 => ⟨h1, h2⟩
    | cons op rest ih =>
        intro s h1 h2
        have h := CustomPwm.applyOp_current_mem s op h1 h2
        exact ih _ h.1 h.2
  exact main ops CustomPwm.initialState (by decide) (by decide)

/-- C5 counterexample: in a Dispensing state (reset deadline armed at
2000 ms, servo at the feed position 256), the reconfiguration request
`{pwm: 300, position: "default"}` immediately moves the servo to 300 —
reconfiguring the default position does change the actuator's commanded
position during an in-flight cycle, contradicting the claim. -/
theorem dispensing_set_default_moves_servo :
    (CustomPwm.feed_handler 0 CustomPwm.initialState).resetDeadline = some 2000 ∧
    (CustomPwm.feed_handler 0 CustomPwm.initialState).current_pwm_value = 256 ∧
    (CustomPwm.set_pwm_handler ⟨some 300, some "default", none⟩
        (CustomPwm.feed_handler 0 CustomPwm.initialState)).2.current_pwm_value = 300 ∧
    (CustomPwm.set_pwm_handler ⟨some 300, some "default", none⟩
        (CustomPwm.feed_handler 0 CustomPwm.initialState)).2.current_pwm_value
      ≠ (CustomPwm.feed_handler 0 CustomPwm.initialState).current_pwm_value := by
  decide

/-- C5 amended: while Dispensing (reset deadline armed at `dl`),
reconfiguring `feed_pwm_value` or `reset_delay_ms` neither cancels the
in-flight cycle (the deadline keeps its original expiry) nor changes the
commanded position, and the new values take effect on the next cycle's
commands; reconfiguring `default_pwm_position`, however, keeps the armed
deadline but immediately commands the actuator to the (clamped) new
default, and the in-flight cycle's reset command uses the
`default_pwm_position` stored at expiry time. -/
theorem reconfig_while_dispensing
    (s : CustomPwm.FeederState) (dl v dv t t2 : Nat)
    (hdisp : s.resetDeadline = some dl)
    (ht : dl ≤ t) :
    (CustomPwm.set_pwm_handler ⟨some v, some "feed", none⟩ s).2.current_pwm_value
      = s.current_pwm_value ∧
    (CustomPwm.set_pwm_handler ⟨some v, some "feed", none⟩ s).2.resetDeadline = some dl ∧
    (CustomPwm.set_pwm_handler ⟨some v, some "feed", none⟩ s).2.feed_pwm_value = v ∧
    (CustomPwm.set_pwm_handler ⟨none, none, some dv⟩ s).2.current_pwm_value
      = s.current_pwm_value ∧
    (CustomPwm.set_pwm_handler ⟨none, none, some dv⟩ s).2.resetDeadline = some dl ∧
    (CustomPwm.set_pwm_handler ⟨none, none, some dv⟩ s).2.reset_delay_ms = dv ∧
    (CustomPwm.set_pwm_handler ⟨some v, some "default", none⟩ s).2.resetDeadline = some dl ∧
    (CustomPwm.set_pwm_handler ⟨some v, some "default", none⟩ s).2.current_pwm_value
      = (CustomPwm.set_servo_position v s).current_pwm_value ∧
    (CustomPwm.advanceTo t
        (CustomPwm.set_pwm_handler ⟨some v, some "default", none⟩ s).2).current_pwm_value
      = (CustomPwm.set_servo_position v s).current_pwm_value ∧
    (CustomPwm.feed_handler t2
        (CustomPwm.set_pwm_handler ⟨some v, some "feed", none⟩ s).2).current_pwm_value
      = (CustomPwm.set_servo_position v s).current_pwm_value ∧
    (CustomPwm.feed_handler t2
        (CustomPwm.set_pwm_handler ⟨none, none, some dv⟩ s).2).resetDeadline
      = some (t2 + dv) := by
  refine ⟨?_, ?_, ?_, ?_, ?_, ?_, ?_, ?_, ?_, ?_, ?_⟩
  · simp [CustomPwm.set_pwm_handler]
  · simp [CustomPwm.set_pwm_handler, hdisp]
  · simp [CustomPwm.set_pwm_handler]
  · simp [CustomPwm.set_pwm_handler]
  · simp [CustomPwm.set_pwm_handler, hdisp]
  · simp [CustomPwm.set_pwm_handler]
  · simp [CustomPwm.set_pwm_handler, hdisp]
  · simp [CustomPwm.set_pwm_handler, CustomPwm.set_servo_position_current]
  · rw [CustomPwm.advanceTo_some_due t dl _
      (by simp [CustomPwm.set_pwm_handler, hdisp]) ht]
    simp [CustomPwm.set_pwm_handler, CustomPwm.servo_reset_timer_callback,
      CustomPwm.set_servo_position_current]
  · simp [CustomPwm.set_pwm_handler, CustomPwm.feed_handler,
      CustomPwm.set_servo_position_current]
  · simp [CustomPwm.set_pwm_handler]

/-- Witness for C5 (amended) in a Dispensing state after a feed at 0 ms,
with new feed/default value 350 and new delay 7000 ms. -/
theorem reconfig_while_dispensing_witness :
    (CustomPwm.set_pwm_handler ⟨some 350, some "feed", none⟩
        (CustomPwm.feed_handler 0 CustomPwm.initialState)).2.current_pwm_value = 256 ∧
    (CustomPwm.set_pwm_handler ⟨some 350, some "feed", none⟩
        (CustomPwm.feed_handler 0 CustomPwm.initialState)).2.resetDeadline = some 2000 ∧
    (CustomPwm.set_pwm_handler ⟨some 350, some "feed", none⟩
        (CustomPwm.feed_handler 0 CustomPwm.initialState)).2.feed_pwm_value = 350 ∧
    (CustomPwm.set_pwm_handler ⟨none, none, some 7000⟩
        (CustomPwm.feed_handler 0 CustomPwm.initialState)).2.current_pwm_value = 256 ∧
    (CustomPwm.set_pwm_handler ⟨none, none, some 7000⟩
        (CustomPwm.feed_handler 0 CustomPwm.initialState)).2.resetDeadline = some 2000 ∧
    (CustomPwm.set_pwm_handler ⟨none, none, some 7000⟩
        (CustomPwm.feed_handler 0 CustomPwm.initialState)).2.reset_delay_ms = 7000 ∧
    (CustomPwm.set_pwm_handler ⟨some 350, some "default", none⟩
        (CustomPwm.feed_handler 0 CustomPwm.initialState)).2.resetDeadline = some 2000 ∧
    (CustomPwm.set_pwm_handler ⟨some 350, some "default", none⟩
        (CustomPwm.feed_handler 0 CustomPwm.initialState)).2.current_pwm_value = 350 ∧
    (CustomPwm.advanceTo 2000 (CustomPwm.set_pwm_handler ⟨some 350, some "default", none⟩
        (CustomPwm.feed_handler 0 CustomPwm.initialState)).2).current_pwm_value = 350 ∧
    (CustomPwm.feed_handler 9999 (CustomPwm.set_pwm_handler ⟨some 350, some "feed", none⟩
        (CustomPwm.feed_handler 0 CustomPwm.initialState)).2).current_pwm_value = 350 ∧
    (CustomPwm.feed_handler 9999 (CustomPwm.set_pwm_handler ⟨none, none, some 7000⟩
        (CustomPwm.feed_handler 0 CustomPwm.initialState)).2).resetDeadline = some 16999 := by
  have h := reconfig_while_dispensing (CustomPwm.feed_handler 0 CustomPwm.initialState)
    2000 350 7000 2000 9999 (by decide) (by decide)
  simpa [CustomPwm.initialState, CustomPwm.feed_handler,
    CustomPwm.set_servo_position] using h

/-- C10: a `/set_pwm` request whose `pwm` field is missing or
non-numeric, or whose `position` field is a string other than
`"default"`, `"feed"` or `"current"`, makes the handler return
`ESP_FAIL`; yet a numeric `delay` field in the same request still
updates `reset_delay_ms` — the settings update is not atomic, and the
state changes even though the request as a whole fails. -/
theorem failed_request_still_sets_delay
    (s : CustomPwm.FeederState) (req : CustomPwm.SetPwmRequest) (d : Nat)
    (hdl : req.delay = some d)
    (hbad : req.pwm = none ∨
      ∃ p ps, req.pwm = some p ∧ req.position = some ps ∧
        ps ≠ "default" ∧ ps ≠ "feed" ∧ ps ≠ "current") :
    (CustomPwm.set_pwm_handler req s).1 = CustomPwm.esp_err.ESP_FAIL ∧
    (CustomPwm.set_pwm_handler req s).2.reset_delay_ms = d ∧
    (s.reset_delay_ms ≠ d → (CustomPwm.set_pwm_handler req s).2 ≠ s) := by
  rcases req with ⟨pwm, pos, dl⟩
  simp only at hdl
  subst hdl
  rcases hbad with hnone | ⟨p, ps, hp, hps, h1, h2, h3⟩
  · simp only at hnone
    subst hnone
    refine ⟨by simp [CustomPwm.set_pwm_handler], by simp [CustomPwm.set_pwm_handler], ?_⟩
    intro hne he
    apply hne
    have hc := congrArg CustomPwm.FeederState.reset_delay_ms he
    simp [CustomPwm.set_pwm_handler] at hc
    exact hc.symm
  · simp only at hp hps
    subst hp hps
    refine ⟨by simp [CustomPwm.set_pwm_handler, h1, h2, h3],
      by simp [CustomPwm.set_pwm_handler, h1, h2, h3], ?_⟩
    intro hne he
    apply hne
    have hc := congrArg CustomPwm.FeederState.reset_delay_ms he
    simp [CustomPwm.set_pwm_handler, h1, h2, h3] at hc
    exact hc.symm

/-- Witness for C10: a body with no `pwm` field but `delay = 1234` fails
with `ESP_FAIL` yet still sets `reset_delay_ms` to 1234, changing the
state. -/
theorem failed_request_still_sets_delay_witness :
    (CustomPwm.set_pwm_handler ⟨none, none, some 1234⟩ CustomPwm.initialState).1
      = CustomPwm.esp_err.ESP_FAIL ∧
    (CustomPwm.set_pwm_handler ⟨none, none, some 1234⟩ CustomPwm.initialState).2.reset_delay_ms
      = 1234 ∧
    (CustomPwm.initialState.reset_delay_ms ≠ 1234 →
      (CustomPwm.set_pwm_handler ⟨none, none, some 1234⟩ CustomPwm.initialState).2
        ≠ CustomPwm.initialState) :=
  failed_request_still_sets_delay CustomPwm.initialState ⟨none, none, some 1234⟩ 1234
    rfl (Or.inl rfl)
